import Mathlib

/-!
Verification of the EMLL utilities and predictors excerpt: a shallow
embedding of the Variant type-erased value box (Variant.tcc), the
LinearPredictor (LinearPredictor.cpp), the ISerializable type-name
contract (ISerializable.h), and the forestTrainer command-line driver
top-level error dispatch (main.cpp), with theorems checking the stated
behavioural properties against these definitions.
-/

set_option autoImplicit false

namespace EMLL

/-! ## C++ type and value model

A small universe of representative C++ types that can be held in a
Variant, together with the two type traits the source consults:
std.is_fundamental and std.is_pointer.
-/

/-- Representative C++ types storable in a Variant. -/
inductive CppType where
  | tInt
  | tDouble
  | tBool
  | tString
  | tVecDouble
  | tIntPtr
  deriving DecidableEq, Repr

/-- The std.is_fundamental trait on the modelled types: arithmetic
types are fundamental, class types and pointer types are not. -/
def CppType.isFundamental : CppType → Bool
  | .tInt => true
  | .tDouble => true
  | .tBool => true
  | .tString => false
  | .tVecDouble => false
  | .tIntPtr => false

/-- The std.is_pointer trait on the modelled types. -/
def CppType.isPointer : CppType → Bool
  | .tIntPtr => true
  | _ => false

/-- A runtime C++ value of one of the modelled types.  Doubles are
modelled as exact rationals. -/
inductive CppValue where
  | vInt (n : Int)
  | vDouble (q : ℚ)
  | vBool (b : Bool)
  | vString (s : String)
  | vVecDouble (xs : List ℚ)
  | vIntPtr (addr : Nat)
  deriving DecidableEq, Repr

/-- The dynamic type of a value, playing the role of typeid. -/
def CppValue.typeOf : CppValue → CppType
  | .vInt _ => .tInt
  | .vDouble _ => .tDouble
  | .vBool _ => .tBool
  | .vString _ => .tString
  | .vVecDouble _ => .tVecDouble
  | .vIntPtr _ => .tIntPtr

/-! ## Errors

The source throws two distinct kinds of exception on a bad Variant
access: utilities.InputException with the typeMismatch error code
(VariantBase.GetValue, Variant.tcc line 47), and a plain
std.runtime_error (Variant.GetValue, Variant.tcc line 100).
-/

/-- Error codes of utilities.InputException. -/
inductive InputExceptionErrors where
  | badData
  | invalidArgument
  | typeMismatch
  deriving DecidableEq, Repr

/-- A thrown C++ exception: either an untyped std.runtime_error or a
typed utilities.InputException carrying an error code. -/
inductive CppError where
  | runtimeError (msg : String)
  | inputException (code : InputExceptionErrors) (msg : String)
  deriving DecidableEq, Repr

/-- Whether an error is the dedicated typed type-mismatch error kind
(utilities.InputException with code typeMismatch). -/
def CppError.isTypeMismatch : CppError → Bool
  | .inputException .typeMismatch _ => true
  | _ => false

/-! ## Variant (Variant.tcc)

Variant holds a type tag (std.type_index member named here typeTag)
and an owned boxed value.  VariantDerived of ValueType is the concrete
box; its dynamic type is determined by the type of the stored value,
so the dynamic_cast in VariantBase.GetValue succeeds exactly when the
requested type equals the dynamic type of the held value.
-/

/-- A Variant: the stored type tag together with the owned boxed value
(the field typeTag embeds the private member of Variant holding a
std.type_index, and value embeds the VariantDerived box). -/
structure Variant where
  typeTag : CppType
  value : CppValue
  deriving DecidableEq, Repr

/-- VariantBase.GetValue of ValueType (Variant.tcc lines 41-51):
dynamic_cast the box to VariantDerived of the requested type; on
failure throw InputException typeMismatch, on success return the held
value. -/
def VariantBase.GetValue (t : CppType) (value : CppValue) : Except CppError CppValue :=
  if value.typeOf = t then
    Except.ok value
  else
    Except.error (CppError.inputException InputExceptionErrors.typeMismatch
      "Variant::GetValue called with wrong type.")

/-- Variant.GetValue of ValueType (Variant.tcc lines 95-104): if the
requested type differs from the stored type tag, throw
std.runtime_error with message Bad variant access; otherwise delegate
to VariantBase.GetValue on the box. -/
def Variant.GetValue (v : Variant) (t : CppType) : Except CppError CppValue :=
  if t ≠ v.typeTag then
    Except.error (CppError.runtimeError "Bad variant access")
  else
    VariantBase.GetValue t v.value

/-- Variant.operator= (Variant.tcc lines 106-114): replace the type
tag with the typeid of the assigned value and the box with a fresh
VariantDerived holding it. -/
def Variant.assign (_v : Variant) (w : CppValue) : Variant :=
  { typeTag := w.typeOf, value := w }

/-- Variant.IsType of ValueType (Variant.tcc lines 116-120): compare
the typeid of the requested type with the stored tag. -/
def Variant.IsType (v : Variant) (t : CppType) : Bool :=
  t = v.typeTag

/-- MakeVariant of ValueType (Variant.tcc lines 122-128): build a
fresh VariantDerived box around the constructed value and tag the
Variant with the typeid of ValueType. -/
def MakeVariant (w : CppValue) : Variant :=
  { typeTag := w.typeOf, value := w }

/-- VariantDerived.IsPrimitiveType (Variant.tcc line 78):
std.is_fundamental of the stored ValueType. -/
def VariantDerived.IsPrimitiveType (t : CppType) : Bool :=
  t.isFundamental

/-- VariantDerived.IsSerializable (Variant.tcc line 80): the negation
of IsPrimitiveType. -/
def VariantDerived.IsSerializable (t : CppType) : Bool :=
  !(VariantDerived.IsPrimitiveType t)

/-- VariantDerived.IsPointer (Variant.tcc line 82): std.is_pointer of
the stored ValueType. -/
def VariantDerived.IsPointer (t : CppType) : Bool :=
  t.isPointer

/-- The classification queries on a Variant dispatch virtually to the
VariantDerived box, whose ValueType is the dynamic type of the held
value. -/
def Variant.IsPrimitiveType (v : Variant) : Bool :=
  VariantDerived.IsPrimitiveType v.value.typeOf

/-- Virtual dispatch of IsSerializable to the held box. -/
def Variant.IsSerializable (v : Variant) : Bool :=
  VariantDerived.IsSerializable v.value.typeOf

/-- Virtual dispatch of IsPointer to the held box. -/
def Variant.IsPointer (v : Variant) : Bool :=
  VariantDerived.IsPointer v.value.typeOf

/-! ## Heap model for Clone

VariantDerived.Clone (Variant.tcc lines 68-72) allocates a fresh
VariantDerived holding a copy of the value.  To state that the clone
is independent of the original (deep copy, not sharing), boxes live in
an explicit heap of cells and a Variant refers to its box by cell
index; destruction frees the cell.
-/

/-- A heap of boxed values; a freed cell is none. -/
structure Heap where
  cells : List (Option CppValue)
  deriving DecidableEq, Repr

/-- Allocate a fresh cell holding the given value, returning the new
heap and the index of the fresh cell. -/
def Heap.alloc (h : Heap) (w : CppValue) : Heap × Nat :=
  (⟨h.cells ++ [some w]⟩, h.cells.length)

/-- Read a cell; out-of-range or freed cells read as none. -/
def Heap.read (h : Heap) (r : Nat) : Option CppValue :=
  h.cells[r]?.getD none

/-- Free a cell (the unique_ptr releasing its box). -/
def Heap.free (h : Heap) (r : Nat) : Heap :=
  ⟨h.cells.set r none⟩

/-- A Variant under the heap model: the type tag and the index of the
owned box cell. -/
structure VariantH where
  typeTag : CppType
  ref : Nat
  deriving DecidableEq, Repr

/-- MakeVariant under the heap model: allocate a fresh box. -/
def MakeVariantH (h : Heap) (w : CppValue) : Heap × VariantH :=
  let a := h.alloc w
  (a.1, { typeTag := w.typeOf, ref := a.2 })

/-- VariantDerived.Clone (Variant.tcc lines 68-72): allocate a new
VariantDerived holding a copy of the stored value; its base tag is the
typeid of the stored ValueType.  An invalid source reference leaves
the heap unchanged (unreachable for a well-formed Variant). -/
def VariantH.Clone (h : Heap) (v : VariantH) : Heap × VariantH :=
  match h.read v.ref with
  | some val =>
      let a := h.alloc val
      (a.1, { typeTag := val.typeOf, ref := a.2 })
  | none => (h, v)

/-- Destroying a Variant releases its owned box. -/
def VariantH.destroy (h : Heap) (v : VariantH) : Heap :=
  h.free v.ref

/-! ## LinearPredictor (LinearPredictor.cpp)

Weights and bias are modelled as exact rationals; the data vector as a
list of rationals.  IDataVector.Dot is the dot product of the data
vector with the weight vector, and DoubleVector.Scale multiplies every
weight by the scalar.
-/

/-- Dot product of a data vector with a weight vector (pairwise over
the common prefix, as the dense evaluation does). -/
def dotProduct (x w : List ℚ) : ℚ :=
  (List.zipWith (fun a b => a * b) x w).sum

/-- A linear predictor: weight vector and bias
(members underscore-w and underscore-b). -/
structure LinearPredictor where
  w : List ℚ
  b : ℚ
  deriving DecidableEq, Repr

/-- LinearPredictor.Predict (LinearPredictor.cpp lines 31-34):
dataVector.Dot(w) + b. -/
def LinearPredictor.Predict (p : LinearPredictor) (x : List ℚ) : ℚ :=
  dotProduct x p.w + p.b

/-- LinearPredictor.Scale (LinearPredictor.cpp lines 47-51): scale
every weight and the bias by the scalar. -/
def LinearPredictor.Scale (p : LinearPredictor) (s : ℚ) : LinearPredictor :=
  { w := p.w.map (fun a => a * s), b := p.b * s }

/-! ## Model graph (layers) for AddToModel

LinearPredictor.AddToModel (LinearPredictor.cpp lines 53-65) appends a
Coordinatewise multiply layer, a Sum layer and a Coordinatewise add
layer to a Model.  The Model container and its AddLayer operation are
not part of the excerpt, so they are modelled from the spec.
-/

/-- A coordinate: a reference to one output element of one layer. -/
structure Coordinate where
  layerIndex : Nat
  elementIndex : Nat
  deriving DecidableEq, Repr

instance : Inhabited Coordinate := ⟨⟨0, 0⟩⟩

/-- An ordered sequence of coordinates wiring multi-input layers. -/
abbrev CoordinateList := List Coordinate

/-- Coordinatewise.OperationType (add or multiply). -/
inductive OperationType where
  | add
  | multiply
  deriving DecidableEq, Repr

/-- A layer of the graph: a Coordinatewise layer applying its
operation elementwise between stored values and input coordinates, or
a Sum layer reducing its input coordinates to one output. -/
inductive Layer where
  | coordinatewise (values : List ℚ) (inputs : CoordinateList) (op : OperationType)
  | sum (inputs : CoordinateList)
  deriving DecidableEq, Repr

/-- Number of output elements of a layer: a Coordinatewise layer is
elementwise (one output per stored value), a Sum layer has a single
output. -/
def Layer.outputSize : Layer → Nat
  | .coordinatewise values _ _ => values.length
  | .sum _ => 1

/-- Modelled from the spec: Model, the owning container of the graph
(the Model and Layer classes are outside the excerpt; the spec says
the Model owns a collection of nodes in addition order, used for
deterministic traversal). -/
structure Model where
  layers : List Layer
  deriving DecidableEq, Repr

/-- Modelled from the spec: Model.AddLayer takes ownership of the new
layer, appending it after the layers already present, and returns the
CoordinateList referring to the new layer's outputs (the spec: a node
may only reference coordinates of nodes already present when it is
added, and the returned handle produces coordinates of the new
node). -/
def Model.AddLayer (m : Model) (l : Layer) : Model × CoordinateList :=
  (⟨m.layers ++ [l]⟩,
   (List.range l.outputSize).map (fun i => ⟨m.layers.length, i⟩))

/-- LinearPredictor.AddToModel (LinearPredictor.cpp lines 53-65):
append a Coordinatewise multiply layer over the weights and the input
coordinates, a Sum layer over its outputs, and a Coordinatewise add
layer applying the bias to the single sum output; return the bias
layer coordinates. -/
def LinearPredictor.AddToModel (p : LinearPredictor) (m : Model)
    (inputCoordinates : CoordinateList) : Model × CoordinateList :=
  let r1 := m.AddLayer (Layer.coordinatewise p.w inputCoordinates OperationType.multiply)
  let r2 := r1.1.AddLayer (Layer.sum r1.2)
  let r3 := r2.1.AddLayer (Layer.coordinatewise [p.b] [r2.2.getD 0 default] OperationType.add)
  r3

/-! ## ISerializable (ISerializable.h) -/

/-- ISerializable.GetRuntimeTypeName (ISerializable.h line 30): the
instance method returning the runtime type name. -/
def ISerializable.GetRuntimeTypeName : String :=
  "ISerializable"

/-- ISerializable.GetTypeName (ISerializable.h line 45): the static
accessor returning the type name. -/
def ISerializable.GetTypeName : String :=
  "ISerializable"

/-! ## forestTrainer driver (main.cpp)

The top level of main wraps the whole body in a try block with three
handlers, in order: CommandLineParserPrintHelpException (print help to
stdout, return 0), CommandLineParserErrorException (print the parse
errors to stderr, return 1), utilities.Exception (print the message to
stderr, return 1).  A body that finishes returns 0.
-/

/-- Outcome of running the body of main: normal completion or one of
the exception kinds the handlers distinguish. -/
inductive TrialOutcome where
  | success
  | printHelpException (helpText : String)
  | parseErrorException (errors : List String)
  | utilitiesException (msg : String)
  deriving DecidableEq, Repr

/-- Output stream a line is printed to. -/
inductive StreamKind where
  | stdout
  | stderr
  deriving DecidableEq, Repr

/-- Observable result of main: the exit status and the lines printed,
in order, each tagged with its stream. -/
structure MainResult where
  exitCode : Nat
  printed : List (StreamKind × String)
  deriving DecidableEq, Repr

/-- Top-level dispatch of main (main.cpp lines 171-191): the handler
for a help request prints the help text and returns 0; the handler for
a parse error prints a header and each error message to stderr and
returns 1; the handler for any other utilities.Exception prints the
message to stderr and returns 1; normal completion returns 0. -/
def forestTrainerMain : TrialOutcome → MainResult
  | .success => { exitCode := 0, printed := [] }
  | .printHelpException helpText =>
      { exitCode := 0, printed := [(StreamKind.stdout, helpText)] }
  | .parseErrorException errors =>
      { exitCode := 1,
        printed := (StreamKind.stderr, "Command line parse error:") ::
          errors.map (fun e => (StreamKind.stderr, e)) }
  | .utilitiesException msg =>
      { exitCode := 1, printed := [(StreamKind.stderr, "exception: " ++ msg)] }

/-! ## Helper lemmas -/

/-- Scaling the weight vector scales the dot product. -/
theorem dotProduct_map_scale (x w : List ℚ) (s : ℚ) :
    dotProduct x (w.map (fun a => a * s)) = dotProduct x w * s := by
  induction x generalizing w with
  | nil => simp [dotProduct]
  | cons a xs ih =>
    cases w with
    | nil => simp [dotProduct]
    | cons b ws =>
      simp only [List.map_cons, dotProduct, List.zipWith_cons_cons, List.sum_cons] at ih ⊢
      rw [ih]
      ring

/-- Reading a valid cell bounds the reference by the heap size. -/
theorem Heap.read_lt_length (h : Heap) (r : Nat) (val : CppValue)
    (hr : h.read r = some val) : r < h.cells.length := by
  by_contra hge
  have hnone : h.cells[r]? = none := List.getElem?_eq_none (Nat.le_of_not_lt hge)
  simp [Heap.read, hnone] at hr

/-! ## Claim theorems -/

/-- Claim C1: for every value v of type T, constructing a Variant with
MakeVariant of T applied to v and then calling GetValue at the same
type T returns the held value v: the stored type identifier recorded
at construction equals the typeid of T, so the tag check passes and
the dynamic_cast in the box succeeds. -/
theorem claim_C1_variant_roundtrip (w : CppValue) :
    (MakeVariant w).GetValue w.typeOf = Except.ok w := by
  simp [MakeVariant, Variant.GetValue, VariantBase.GetValue]

/-- Claim C2 counterexample: retrieving a double from a Variant
holding an int fails, but with the untyped std.runtime_error Bad
variant access thrown by Variant.GetValue, not with the dedicated
typed type-mismatch error kind the claim names (that typed error sits
in VariantBase.GetValue, behind the tag check, and is not the error
surfaced). -/
theorem claim_C2_counterexample :
    (MakeVariant (CppValue.vInt 3)).GetValue CppType.tDouble =
      Except.error (CppError.runtimeError "Bad variant access") ∧
    CppError.isTypeMismatch (CppError.runtimeError "Bad variant access") = false := by
  exact ⟨by rfl, by rfl⟩

/-- Claim C2 (amended): for every value v of type T and every type U
distinct from T, GetValue at U on MakeVariant of T applied to v fails
with no silent truncation or conversion, but the failure surfaced is
the untyped std.runtime_error Bad variant access from the tag check in
Variant.GetValue, not the dedicated typed type-mismatch error kind. -/
theorem claim_C2_wrong_type_fails_untyped (w : CppValue) (u : CppType)
    (h : u ≠ w.typeOf) :
    (MakeVariant w).GetValue u =
      Except.error (CppError.runtimeError "Bad variant access") := by
  simp [MakeVariant, Variant.GetValue, h]

/-- Claim C2 witness: the amended statement at a held int value and
requested type double. -/
theorem claim_C2_wrong_type_fails_untyped_witness :
    (MakeVariant (CppValue.vBool true)).GetValue CppType.tString =
      Except.error (CppError.runtimeError "Bad variant access") :=
  claim_C2_wrong_type_fails_untyped (CppValue.vBool true) CppType.tString (by decide)

/-- Claim C3: assignment replaces the stored type identifier and the
owned value together: in the state after the assignment both fields
correspond to the new value w, IsType at the type of w holds, and
GetValue at any type T distinct from that of w fails. -/
theorem claim_C3_reassignment_replaces_both (v : Variant) (w : CppValue)
    (t : CppType) (h : t ≠ w.typeOf) :
    (v.assign w).typeTag = w.typeOf ∧
    (v.assign w).value = w ∧
    (v.assign w).IsType w.typeOf = true ∧
    (v.assign w).GetValue t =
      Except.error (CppError.runtimeError "Bad variant access") := by
  refine ⟨rfl, rfl, ?_, ?_⟩
  · simp [Variant.assign, Variant.IsType]
  · simp [Variant.assign, Variant.GetValue, h]

/-- Claim C3 witness: reassigning a bool-holding Variant to an int and
then asking for the old type bool. -/
theorem claim_C3_reassignment_replaces_both_witness :
    ((MakeVariant (CppValue.vBool true)).assign (CppValue.vInt 7)).typeTag =
      (CppValue.vInt 7).typeOf ∧
    ((MakeVariant (CppValue.vBool true)).assign (CppValue.vInt 7)).value =
      CppValue.vInt 7 ∧
    ((MakeVariant (CppValue.vBool true)).assign (CppValue.vInt 7)).IsType
      (CppValue.vInt 7).typeOf = true ∧
    ((MakeVariant (CppValue.vBool true)).assign (CppValue.vInt 7)).GetValue
      CppType.tBool = Except.error (CppError.runtimeError "Bad variant access") :=
  claim_C3_reassignment_replaces_both (MakeVariant (CppValue.vBool true))
    (CppValue.vInt 7) CppType.tBool (by decide)

/-- Claim C4: Clone on a Variant holding a value builds a new box in a
fresh cell holding an equal copy of the value with the same stored
type, and the clone remains readable, with the same value, after the
original Variant is destroyed and its cell released. -/
theorem claim_C4_clone_deep_copy (h : Heap) (v : VariantH) (val : CppValue)
    (hv : h.read v.ref = some val) :
    (VariantH.Clone h v).2.ref ≠ v.ref ∧
    (VariantH.Clone h v).2.typeTag = val.typeOf ∧
    (VariantH.Clone h v).1.read (VariantH.Clone h v).2.ref = some val ∧
    (VariantH.destroy (VariantH.Clone h v).1 v).read (VariantH.Clone h v).2.ref =
      some val := by
  have hlt : v.ref < h.cells.length := Heap.read_lt_length h v.ref val hv
  have hclone : VariantH.Clone h v =
      (⟨h.cells ++ [some val]⟩, { typeTag := val.typeOf, ref := h.cells.length }) := by
    simp [VariantH.Clone, hv, Heap.alloc]
  refine ⟨?_, ?_, ?_, ?_⟩
  · rw [hclone]
    exact fun he => Nat.lt_irrefl _ (he ▸ hlt)
  · rw [hclone]
  · rw [hclone]
    simp [Heap.read, List.getElem?_concat_length]
  · rw [hclone]
    have hne : v.ref ≠ h.cells.length := Nat.ne_of_lt hlt
    simp only [VariantH.destroy, Heap.free, Heap.read]
    rw [List.getElem?_set_ne hne]
    simp [List.getElem?_concat_length]

/-- Claim C4 witness: cloning a one-cell heap holding an int. -/
theorem claim_C4_clone_deep_copy_witness :
    (VariantH.Clone ⟨[some (CppValue.vInt 5)]⟩ ⟨CppType.tInt, 0⟩).2.ref ≠ 0 ∧
    (VariantH.Clone ⟨[some (CppValue.vInt 5)]⟩ ⟨CppType.tInt, 0⟩).2.typeTag =
      (CppValue.vInt 5).typeOf ∧
    (VariantH.Clone ⟨[some (CppValue.vInt 5)]⟩ ⟨CppType.tInt, 0⟩).1.read
      (VariantH.Clone ⟨[some (CppValue.vInt 5)]⟩ ⟨CppType.tInt, 0⟩).2.ref =
      some (CppValue.vInt 5) ∧
    (VariantH.destroy (VariantH.Clone ⟨[some (CppValue.vInt 5)]⟩ ⟨CppType.tInt, 0⟩).1
      ⟨CppType.tInt, 0⟩).read
      (VariantH.Clone ⟨[some (CppValue.vInt 5)]⟩ ⟨CppType.tInt, 0⟩).2.ref =
      some (CppValue.vInt 5) :=
  claim_C4_clone_deep_copy ⟨[some (CppValue.vInt 5)]⟩ ⟨CppType.tInt, 0⟩
    (CppValue.vInt 5) (by rfl)

/-- Claim C5: the linear predictor with weights 2 and -1 and bias one
half predicts exactly three halves on the input vector of two ones,
and in general Predict returns the dot product of the weights with the
input plus the bias. -/
theorem claim_C5_predict_concrete_and_general :
    (LinearPredictor.Predict { w := [2, -1], b := 1/2 } [1, 1] = 3/2) ∧
    ∀ (p : LinearPredictor) (x : List ℚ),
      p.Predict x = dotProduct x p.w + p.b := by
  constructor
  · norm_num [LinearPredictor.Predict, dotProduct]
  · intro p x
    rfl

/-- Claim C6: AddToModel on an empty model with two input coordinates
appends exactly three layers, in order a Coordinatewise multiply layer
over the input coordinates, a Sum layer over the multiply outputs, and
a Coordinatewise add layer applying the bias to the sum output, and
returns the coordinate list of the final bias layer. -/
theorem claim_C6_add_to_model_three_layers (w1 w2 b : ℚ) (c0 c1 : Coordinate) :
    (LinearPredictor.AddToModel { w := [w1, w2], b := b } { layers := [] }
        [c0, c1]).1.layers =
      [Layer.coordinatewise [w1, w2] [c0, c1] OperationType.multiply,
       Layer.sum [⟨0, 0⟩, ⟨0, 1⟩],
       Layer.coordinatewise [b] [⟨1, 0⟩] OperationType.add] ∧
    (LinearPredictor.AddToModel { w := [w1, w2], b := b } { layers := [] }
        [c0, c1]).2 = [⟨2, 0⟩] := by
  exact ⟨rfl, rfl⟩

/-- Claim C7: for ISerializable the instance method and the static
accessor return the same stable identifier, the string
ISerializable. -/
theorem claim_C7_type_name_contract :
    ISerializable.GetRuntimeTypeName = ISerializable.GetTypeName ∧
    ISerializable.GetRuntimeTypeName = "ISerializable" :=
  ⟨rfl, rfl⟩

/-- Claim C8: the driver catches every utilities.Exception at top
level, prints its message as a user-facing stderr line and exits with
status 1; a parse-error exception also exits 1 after printing the
errors; a help-request exception prints the help text and exits 0;
normal completion exits 0; all printing is performed by this
dispatch. -/
theorem claim_C8_driver_error_dispatch (msg helpText : String)
    (errors : List String) :
    (forestTrainerMain (TrialOutcome.utilitiesException msg)).exitCode = 1 ∧
    (forestTrainerMain (TrialOutcome.utilitiesException msg)).printed =
      [(StreamKind.stderr, "exception: " ++ msg)] ∧
    (forestTrainerMain (TrialOutcome.parseErrorException errors)).exitCode = 1 ∧
    (forestTrainerMain (TrialOutcome.printHelpException helpText)).exitCode = 0 ∧
    (forestTrainerMain (TrialOutcome.printHelpException helpText)).printed =
      [(StreamKind.stdout, helpText)] ∧
    (forestTrainerMain TrialOutcome.success).exitCode = 0 :=
  ⟨rfl, rfl, rfl, rfl, rfl, rfl⟩

/-- Claim C9: scaling a predictor by s scales its prediction on every
input by s: Scale multiplies every weight and the bias by s, and the
dot product is linear in the weights. -/
theorem claim_C9_scale_homomorphism (p : LinearPredictor) (s : ℚ) (x : List ℚ) :
    (p.Scale s).Predict x = s * p.Predict x := by
  simp only [LinearPredictor.Scale, LinearPredictor.Predict, dotProduct_map_scale]
  ring

/-- Claim C10: on every Variant the classification queries are
complementary, IsSerializable returning the negation of
IsPrimitiveType, and a Variant holding a pointer-like value reports
both IsPointer and IsSerializable true. -/
theorem claim_C10_classification_complementary (v : Variant) :
    v.IsSerializable = !v.IsPrimitiveType ∧
    (v.IsPointer = true → v.IsSerializable = true) := by
  refine ⟨rfl, ?_⟩
  intro hp
  rcases v with ⟨tag, val⟩
  cases val <;>
    simp_all [Variant.IsPointer, Variant.IsSerializable, VariantDerived.IsPointer,
      VariantDerived.IsSerializable, VariantDerived.IsPrimitiveType,
      CppValue.typeOf, CppType.isPointer, CppType.isFundamental]

/-- Claim C10 witness: a Variant holding an int pointer reports
IsPointer and IsSerializable true, and the complementarity holds on
it. -/
theorem claim_C10_classification_complementary_witness :
    (MakeVariant (CppValue.vIntPtr 0)).IsPointer = true ∧
    (MakeVariant (CppValue.vIntPtr 0)).IsSerializable = true ∧
    (MakeVariant (CppValue.vIntPtr 0)).IsSerializable =
      !(MakeVariant (CppValue.vIntPtr 0)).IsPrimitiveType :=
  ⟨by rfl,
   (claim_C10_classification_complementary (MakeVariant (CppValue.vIntPtr 0))).2 (by rfl),
   (claim_C10_classification_complementary (MakeVariant (CppValue.vIntPtr 0))).1⟩

end EMLL
